import Mathlib

/-!
Verification of the weather microservice (batch extraction script
`scripts/extrair_clima.py` and read-only API `api/main.py`).

The Python values flowing through the system are modelled by a small JSON
datatype; Python subscription (`d[k]`, `l[i]`) is modelled as a fallible
operation returning either the value or the Python exception it raises
(`KeyError`, `IndexError`, `TypeError`).  Database effects are modelled by an
explicit failure-injection configuration (connection / execute / commit
failures) together with the committed table as explicit state.
-/

namespace Clima

/-- Model of a Python/JSON value as it appears in the OpenWeather response:
strings, numbers (modelled as rationals), arrays and objects (association
lists, as produced by `json` decoding). -/
inductive Json where
  | str (s : String)
  | num (q : ℚ)
  | arr (xs : List Json)
  | obj (fields : List (String × Json))

/-- The Python exceptions that subscription can raise: `KeyError` for a
missing dictionary key, `IndexError` for an out-of-range list index,
`TypeError` for subscripting a value of the wrong shape. -/
inductive PyExc where
  | keyError (k : String)
  | indexError
  | typeError
deriving DecidableEq

/-- Python `d[k]` for a string key: returns the value bound to `k` when `d`
is a dict containing it, raises `KeyError` when the key is absent, and
`TypeError` when `d` is not a dict. -/
def Json.item : Json → String → Except PyExc Json
  | .obj fs, k =>
    match fs.lookup k with
    | some v => .ok v
    | none => .error (.keyError k)
  | _, _ => .error .typeError

/-- Python `l[i]` for a non-negative integer index: returns the element for a
list (or the one-character string for a string), raises `IndexError` when the
index is out of range, and `TypeError` on other shapes. -/
def Json.index : Json → Nat → Except PyExc Json
  | .arr xs, i =>
    match xs.get? i with
    | some v => .ok v
    | none => .error .indexError
  | .str s, i =>
    match s.data.get? i with
    | some c => .ok (.str (String.singleton c))
    | none => .error .indexError
  | _, _ => .error .typeError

/-- The extracted record: the Python dict literal built by
`extrair_info_interesse`, an association list of field name to value. -/
abbrev Registro := List (String × Json)

/-- The ten field names of the extracted record, in the order the dict
literal of `extrair_info_interesse` lists them. -/
def chavesRegistro : List String :=
  ["cidade", "pais", "temperatura_c", "sensacao_termica_c", "temp_min_c",
   "temp_max_c", "umidade_pct", "descricao", "velocidade_vento_ms",
   "timestamp_coleta"]

/-- Body of the `try` block of `extrair_info_interesse`: evaluates the ten
field expressions of the dict literal in Python's left-to-right order,
propagating the first exception raised, and on success returns the completed
dict.  `dados_completos['sys']['country']` is two chained subscriptions, the
weather description is `dados_completos['weather'][0]['description']`. -/
def camposClima (d : Json) : Except PyExc Registro := do
  let cidade ← d.item "name"
  let pais ← (← d.item "sys").item "country"
  let temperatura ← (← d.item "main").item "temp"
  let sensacao ← (← d.item "main").item "feels_like"
  let tempMin ← (← d.item "main").item "temp_min"
  let tempMax ← (← d.item "main").item "temp_max"
  let umidade ← (← d.item "main").item "humidity"
  let descricao ← (← (← d.item "weather").index 0).item "description"
  let vento ← (← d.item "wind").item "speed"
  let ts ← d.item "dt"
  pure [("cidade", cidade), ("pais", pais), ("temperatura_c", temperatura),
        ("sensacao_termica_c", sensacao), ("temp_min_c", tempMin),
        ("temp_max_c", tempMax), ("umidade_pct", umidade),
        ("descricao", descricao), ("velocidade_vento_ms", vento),
        ("timestamp_coleta", ts)]

/-- `extrair_info_interesse(dados_completos)`: returns `.ok none` when the
input is `None` or when a `KeyError` is raised and caught (the function
prints and returns `None`); returns `.ok (some rec)` with the completed
record on success; returns `.error e` when the field evaluation raises an
exception other than `KeyError`, which the `except KeyError` clause does not
catch and which therefore propagates to the caller uncaught. -/
def extrair_info_interesse (dados_completos : Option Json) :
    Except PyExc (Option Registro) :=
  match dados_completos with
  | none => .ok none
  | some d =>
    match camposClima d with
    | .ok rec => .ok (some rec)
    | .error (.keyError _) => .ok none
    | .error e => .error e

/-- Failure injection for the script's database interactions: whether
`psycopg2.connect`, `cursor.execute` and `conn.commit` raise
`psycopg2.Error`. -/
structure DBConfig where
  connectFails : Bool
  executeFails : Bool
  commitFails : Bool
deriving DecidableEq

/-- Observable outcome of one `salvar_dados_no_bd` call: the success print,
the "Nenhum dado para salvar" early return, the logged database error of the
`except Error` clause, or an uncaught (non-`psycopg2.Error`) exception
propagating out of the function. -/
inductive WriterOutcome where
  | saved
  | noData
  | dbError
  | uncaught
deriving DecidableEq

/-- Model of a `clima` table row as inserted by the writer: the ten values
in the column order of the INSERT statement. -/
abbrev Linha := List Json

/-- Result of one `salvar_dados_no_bd` call: the committed table after the
call, the observable outcome, whether `conn.rollback()` ran, whether a
connection was opened and whether it was closed by the `finally` block, and
how many times `cursor.execute` of the INSERT was attempted. -/
structure WriterResult where
  table : List Linha
  outcome : WriterOutcome
  rolledBack : Bool
  connOpened : Bool
  connClosed : Bool
  insertAttempts : Nat

/-- Step 4 of `salvar_dados_no_bd`: the tuple `valores`, the ten dict
subscriptions in the column order of the INSERT query.  `none` models a
`KeyError` (the record lacks one of the keys), which `except Error` would
not catch. -/
def valores (dados : Registro) : Option (List Json) := do
  let cidade ← dados.lookup "cidade"
  let pais ← dados.lookup "pais"
  let temperatura ← dados.lookup "temperatura_c"
  let sensacao ← dados.lookup "sensacao_termica_c"
  let tempMin ← dados.lookup "temp_min_c"
  let tempMax ← dados.lookup "temp_max_c"
  let umidade ← dados.lookup "umidade_pct"
  let descricao ← dados.lookup "descricao"
  let vento ← dados.lookup "velocidade_vento_ms"
  let ts ← dados.lookup "timestamp_coleta"
  pure [cidade, pais, temperatura, sensacao, tempMin, tempMax, umidade,
        descricao, vento, ts]

/-- `salvar_dados_no_bd(dados)` acting on a committed table `table` under
failure injection `cfg`.  Control flow of the source: early return on `None`
input; connect (a failure raises `psycopg2.Error`, caught with `conn` still
`None`, so no rollback and nothing to close); build the `valores` tuple (a
`KeyError` there is uncaught, no rollback, but `finally` closes the
connection); execute the INSERT and commit (an `Error` in either is caught,
`conn.rollback()` discards the uncommitted row, `finally` closes); on
success the commit appends exactly the tuple as one row.  No path retries
anything. -/
def salvar_dados_no_bd (cfg : DBConfig) (table : List Linha)
    (dados : Option Registro) : WriterResult :=
  match dados with
  | none => ⟨table, .noData, false, false, false, 0⟩
  | some d =>
    if cfg.connectFails then
      ⟨table, .dbError, false, false, false, 0⟩
    else
      match valores d with
      | none => ⟨table, .uncaught, false, true, true, 0⟩
      | some vs =>
        if cfg.executeFails then
          ⟨table, .dbError, true, true, true, 1⟩
        else if cfg.commitFails then
          ⟨table, .dbError, true, true, true, 1⟩
        else
          ⟨table ++ [vs], .saved, false, true, true, 1⟩

/-- Python truthiness of a decoded JSON value, for the `if dados_brutos:`
and `if dados_filtrados:` tests of the script's main block. -/
def truthy : Json → Bool
  | .str s => !s.isEmpty
  | .num q => q != 0
  | .arr xs => !xs.isEmpty
  | .obj fs => !fs.isEmpty

/-- Result of one run of the script's main block: the committed table, the
writer outcome when `salvar_dados_no_bd` was invoked, how many INSERTs were
attempted, and the uncaught exception, if any, that crashed the run. -/
structure PipelineResult where
  table : List Linha
  writerInvoked : Bool
  writerOutcome : Option WriterOutcome
  insertAttempts : Nat
  crashed : Option PyExc

/-- The script's `__main__` block after the fetch: `dados_brutos` is the
fetch result (`None` on any fetch failure).  `if dados_brutos:` skips falsy
values; `extrair_info_interesse` may crash the run with an uncaught
exception; `if dados_filtrados:` skips `None` (and falsy dicts); otherwise
`salvar_dados_no_bd` runs. -/
def mainPipeline (cfg : DBConfig) (table : List Linha)
    (dados_brutos : Option Json) : PipelineResult :=
  match dados_brutos with
  | none => ⟨table, false, none, 0, none⟩
  | some d =>
    if truthy d then
      match extrair_info_interesse (some d) with
      | .error e => ⟨table, false, none, 0, some e⟩
      | .ok none => ⟨table, false, none, 0, none⟩
      | .ok (some rec) =>
        if rec.isEmpty then
          ⟨table, false, none, 0, none⟩
        else
          let w := salvar_dados_no_bd cfg table (some rec)
          ⟨w.table, true, some w.outcome, w.insertAttempts, none⟩
    else
      ⟨table, false, none, 0, none⟩

/-- Test whether a predicate holds of some suffix of the list (the list
itself and the empty suffix included). -/
def likeScan (f : List Char → Bool) : List Char → Bool
  | [] => f []
  | c :: s => f (c :: s) || likeScan f s

/-- PostgreSQL `LIKE` pattern matching over character lists: `%` matches any
sequence (the rest of the pattern is tried against every suffix), `_`
matches any single character, a backslash escapes the next pattern
character, and any other character matches itself.  A pattern ending in a
bare escape character matches nothing (PostgreSQL rejects it). -/
def likeMatch : List Char → List Char → Bool
  | [], s => s.isEmpty
  | p :: ps, s =>
    if p = '%' then likeScan (likeMatch ps) s
    else
      match s with
      | [] => false
      | c :: s2 =>
        if p = '_' then likeMatch ps s2
        else if p = '\\' then
          match ps with
          | [] => false
          | p2 :: ps2 => p2 == c && likeMatch ps2 s2
        else p == c && likeMatch ps s2

/-- PostgreSQL `ILIKE`: `LIKE` after folding both operands to lower case. -/
def ilike (s pat : String) : Bool :=
  likeMatch (pat.data.map Char.toLower) (s.data.map Char.toLower)

/-- Boolean test that `needle` occurs as a contiguous sublist of `hay`. -/
def contemLista (needle : List Char) : List Char → Bool
  | [] => needle.isEmpty
  | c :: t => needle.isPrefixOf (c :: t) || contemLista needle t

/-- Case-insensitive literal substring containment, the predicate the spec
describes for the city filter: `needle` occurs inside `hay` ignoring case. -/
def contemCI (hay needle : String) : Bool :=
  contemLista (needle.data.map Char.toLower) (hay.data.map Char.toLower)

/-- Characters with special meaning in a `LIKE` pattern. -/
def specialChar (c : Char) : Bool := c == '%' || c == '_' || c == '\\'

/-- One stored row of the `clima` table as the API sees it: `data_insercao`
is the server-assigned insertion timestamp used as sort key, `cidade` the
stored city name, and `id` stands for the remaining columns, which the
endpoints return unchanged and never examine. -/
structure ClimaRow where
  id : Nat
  cidade : String
  data_insercao : Nat
deriving DecidableEq

/-- Failure injection for the API's database interactions: whether
`psycopg2.connect` fails (`get_db_connection` then returns `None`) and
whether `cursor.execute`/`fetchall` raise `psycopg2.Error`. -/
structure ApiDBConfig where
  connectFails : Bool
  queryFails : Bool
deriving DecidableEq

/-- Observable result of one endpoint invocation: HTTP status, response body
(the fetched rows; empty for error responses), and whether a database
connection was opened and closed during the call. -/
structure ApiResult where
  status : Nat
  body : List ClimaRow
  connOpened : Bool
  connClosed : Bool
deriving DecidableEq

/-- The `ORDER BY data_insercao DESC` clause: sort rows so that larger
insertion timestamps come first. -/
def ordenar (rows : List ClimaRow) : List ClimaRow :=
  rows.mergeSort fun a b => b.data_insercao ≤ a.data_insercao

/-- `GET /clima` (`get_clima_todos`): 500 when the connection cannot be
opened (nothing to close); otherwise runs
`SELECT * FROM clima ORDER BY data_insercao DESC` — 500 if the query raises,
else 200 with all rows newest first — and the `finally` block closes the
connection. -/
def get_clima_todos (cfg : ApiDBConfig) (table : List ClimaRow) : ApiResult :=
  if cfg.connectFails then ⟨500, [], false, false⟩
  else if cfg.queryFails then ⟨500, [], true, true⟩
  else ⟨200, ordenar table, true, true⟩

/-- `GET /clima/{cidade}` (`get_clima_por_cidade`): 500 when the connection
cannot be opened; otherwise runs
`SELECT * FROM clima WHERE cidade ILIKE %s ORDER BY data_insercao DESC` with
the pattern `f"%{cidade}%"` — 500 if the query raises; 404 when no row
matches (the `HTTPException(404)` raised inside `try` is not a
`psycopg2.Error`, so the `except Error` clause does not intercept it); else
200 with the matching rows newest first.  The `finally` block closes the
connection on the 200, 404 and query-error paths alike. -/
def get_clima_por_cidade (cfg : ApiDBConfig) (table : List ClimaRow)
    (cidade : String) : ApiResult :=
  if cfg.connectFails then ⟨500, [], false, false⟩
  else if cfg.queryFails then ⟨500, [], true, true⟩
  else
    let registros :=
      ordenar (table.filter fun r => ilike r.cidade ("%" ++ cidade ++ "%"))
    if registros.isEmpty then ⟨404, [], true, true⟩
    else ⟨200, registros, true, true⟩

/-- A well-formed OpenWeather response with every required field present. -/
def respBoa : Json :=
  .obj [("name", .str "Florianopolis"), ("sys", .obj [("country", .str "BR")]),
        ("main", .obj [("temp", .num 20), ("feels_like", .num 21),
                       ("temp_min", .num 18), ("temp_max", .num 23),
                       ("humidity", .num 70)]),
        ("weather", .arr [.obj [("description", .str "ceu limpo")]]),
        ("wind", .obj [("speed", .num 3)]), ("dt", .num 1700000000)]

/-- A response identical to `respBoa` except that its `weather` array holds
a second entry after the same first element. -/
def respBoaDoisClimas : Json :=
  .obj [("name", .str "Florianopolis"), ("sys", .obj [("country", .str "BR")]),
        ("main", .obj [("temp", .num 20), ("feels_like", .num 21),
                       ("temp_min", .num 18), ("temp_max", .num 23),
                       ("humidity", .num 70)]),
        ("weather", .arr [.obj [("description", .str "ceu limpo")],
                          .obj [("description", .str "nuvens")]]),
        ("wind", .obj [("speed", .num 3)]), ("dt", .num 1700000000)]

/-- A response identical to `respBoa` except that its `weather` array is
empty, so `dados_completos['weather'][0]` raises `IndexError`. -/
def respSemWeather : Json :=
  .obj [("name", .str "Florianopolis"), ("sys", .obj [("country", .str "BR")]),
        ("main", .obj [("temp", .num 20), ("feels_like", .num 21),
                       ("temp_min", .num 18), ("temp_max", .num 23),
                       ("humidity", .num 70)]),
        ("weather", .arr []),
        ("wind", .obj [("speed", .num 3)]), ("dt", .num 1700000000)]

/-- A response identical to `respBoa` except that its `main` object lacks
the `temp` key, so `dados_completos['main']['temp']` raises `KeyError`. -/
def respSemTemp : Json :=
  .obj [("name", .str "Florianopolis"), ("sys", .obj [("country", .str "BR")]),
        ("main", .obj [("feels_like", .num 21), ("temp_min", .num 18),
                       ("temp_max", .num 23), ("humidity", .num 70)]),
        ("weather", .arr [.obj [("description", .str "ceu limpo")]]),
        ("wind", .obj [("speed", .num 3)]), ("dt", .num 1700000000)]

/-- A response whose humidity (150) exceeds 100 and whose wind speed (-1)
is negative; every required field is present. -/
def respForaDosLimites : Json :=
  .obj [("name", .str "Florianopolis"), ("sys", .obj [("country", .str "BR")]),
        ("main", .obj [("temp", .num 20), ("feels_like", .num 21),
                       ("temp_min", .num 18), ("temp_max", .num 23),
                       ("humidity", .num 150)]),
        ("weather", .arr [.obj [("description", .str "ceu limpo")]]),
        ("wind", .obj [("speed", .num (-1))]), ("dt", .num 1700000000)]

/-- The record extracted from `respBoa`. -/
def registroBom : Registro :=
  [("cidade", .str "Florianopolis"), ("pais", .str "BR"),
   ("temperatura_c", .num 20), ("sensacao_termica_c", .num 21),
   ("temp_min_c", .num 18), ("temp_max_c", .num 23),
   ("umidade_pct", .num 70), ("descricao", .str "ceu limpo"),
   ("velocidade_vento_ms", .num 3), ("timestamp_coleta", .num 1700000000)]

/-- The spec's data-model constraint on the stored humidity: an integer
between 0 and 100 inclusive. -/
def umidadeValida : Json → Bool
  | .num q => q.den == 1 && decide (0 ≤ q) && decide (q ≤ 100)
  | _ => false

/-- The spec's data-model constraint on the stored wind speed: a number
greater than or equal to zero. -/
def ventoValido : Json → Bool
  | .num q => decide (0 ≤ q)
  | _ => false

/-- Rows of the `clima` table are returned newest first exactly when their
insertion timestamps are non-increasing along the list. -/
def ordenadoDesc (l : List ClimaRow) : Prop :=
  l.Pairwise fun a b => b.data_insercao ≤ a.data_insercao

theorem exceptBind_ok {ε α β : Type} (x : Except ε α) (f : α → Except ε β)
    (b : β) : (x >>= f = Except.ok b) ↔ ∃ a, x = Except.ok a ∧ f a = Except.ok b := by
  cases x <;> simp [Bind.bind, Except.bind]

theorem exceptPure_ok {ε α : Type} (a b : α) :
    ((pure a : Except ε α) = Except.ok b) ↔ a = b := by
  simp [Pure.pure, Except.pure]

/-- Successful extraction decomposes into the thirteen successful
subscriptions of the source's dict literal, and the resulting record is
exactly the literal built from the retrieved values. -/
theorem camposClima_ok_decomp {d : Json} {rec : Registro}
    (h : camposClima d = .ok rec) :
    ∃ cidade s pais m1 temperatura m2 sensacao m3 tempMin m4 tempMax m5
      umidade wx w0 descricao wd vento ts,
      rec = [("cidade", cidade), ("pais", pais), ("temperatura_c", temperatura),
             ("sensacao_termica_c", sensacao), ("temp_min_c", tempMin),
             ("temp_max_c", tempMax), ("umidade_pct", umidade),
             ("descricao", descricao), ("velocidade_vento_ms", vento),
             ("timestamp_coleta", ts)] ∧
      d.item "name" = .ok cidade ∧
      d.item "sys" = .ok s ∧ s.item "country" = .ok pais ∧
      d.item "main" = .ok m1 ∧ m1.item "temp" = .ok temperatura ∧
      d.item "main" = .ok m2 ∧ m2.item "feels_like" = .ok sensacao ∧
      d.item "main" = .ok m3 ∧ m3.item "temp_min" = .ok tempMin ∧
      d.item "main" = .ok m4 ∧ m4.item "temp_max" = .ok tempMax ∧
      d.item "main" = .ok m5 ∧ m5.item "humidity" = .ok umidade ∧
      d.item "weather" = .ok wx ∧ wx.index 0 = .ok w0 ∧
      w0.item "description" = .ok descricao ∧
      d.item "wind" = .ok wd ∧ wd.item "speed" = .ok vento ∧
      d.item "dt" = .ok ts := by
  unfold camposClima at h
  simp only [exceptBind_ok, exceptPure_ok] at h
  obtain ⟨cidade, h1, s, h2, pais, h3, m1, h4, temperatura, h5, m2, h6,
          sensacao, h7, m3, h8, tempMin, h9, m4, h10, tempMax, h11, m5, h12,
          umidade, h13, wx, h14, w0, h15, descricao, h16, wd, h17, vento,
          h18, ts, h19, h20⟩ := h
  exact ⟨cidade, s, pais, m1, temperatura, m2, sensacao, m3, tempMin, m4,
         tempMax, m5, umidade, wx, w0, descricao, wd, vento, ts,
         h20.symm, h1, h2, h3, h4, h5, h6, h7, h8, h9, h10, h11, h12, h13,
         h14, h15, h16, h17, h18, h19⟩

theorem likeScan_of_nil (f : List Char → Bool) (hf : f [] = true)
    (s : List Char) : likeScan f s = true := by
  induction s with
  | nil => simpa [likeScan] using hf
  | cons c t ih => simp [likeScan, ih]

theorem isPrefixOf_empty (q : List Char) : q.isPrefixOf [] = q.isEmpty := by
  cases q <;> rfl

theorem specialChar_false_iff {c : Char} :
    specialChar c = false ↔ c ≠ '%' ∧ c ≠ '_' ∧ c ≠ '\\' := by
  simp [specialChar, not_or, and_assoc]

theorem likeMatch_pct (ps s : List Char) :
    likeMatch ('%' :: ps) s = likeScan (likeMatch ps) s := by
  rw [likeMatch.eq_def]
  simp

theorem likeMatch_lit_nil (a : Char) (ps : List Char) (h1 : a ≠ '%') :
    likeMatch (a :: ps) [] = false := by
  rw [likeMatch.eq_def]
  simp [h1]

theorem likeMatch_lit_cons (a c : Char) (ps s2 : List Char) (h1 : a ≠ '%')
    (h2 : a ≠ '_') (h3 : a ≠ '\\') :
    likeMatch (a :: ps) (c :: s2) = (a == c && likeMatch ps s2) := by
  rw [likeMatch.eq_def]
  simp [h1, h2, h3]

/-- A wildcard-free pattern followed by `%` matches exactly the strings it
is a literal prefix of. -/
theorem likeMatch_plain (q : List Char) (hq : ∀ c ∈ q, specialChar c = false) :
    ∀ s, likeMatch (q ++ ['%']) s = q.isPrefixOf s := by
  induction q with
  | nil =>
    intro s
    rw [List.nil_append, likeMatch_pct]
    rw [likeScan_of_nil _ rfl s]
    exact (List.isPrefixOf_nil_left).symm
  | cons a q2 ih =>
    intro s
    obtain ⟨ha1, ha2, ha3⟩ := specialChar_false_iff.mp (hq a (by simp))
    have ih2 := ih fun c hc => hq c (by simp [hc])
    rw [List.cons_append]
    cases s with
    | nil =>
      rw [likeMatch_lit_nil a _ ha1]
      exact (List.isPrefixOf_cons_nil).symm
    | cons c s2 =>
      rw [likeMatch_lit_cons a c _ s2 ha1 ha2 ha3, ih2 s2]
      rfl

theorem likeScan_substr (q : List Char) (hq : ∀ c ∈ q, specialChar c = false) :
    ∀ s, likeScan (likeMatch (q ++ ['%'])) s = contemLista q s := by
  intro s
  induction s with
  | nil =>
    show likeMatch (q ++ ['%']) [] = contemLista q []
    rw [likeMatch_plain q hq, isPrefixOf_empty]
    cases q <;> rfl
  | cons c t ih =>
    show (likeMatch (q ++ ['%']) (c :: t) || likeScan (likeMatch (q ++ ['%'])) t)
        = contemLista q (c :: t)
    rw [likeMatch_plain q hq, ih]
    rfl

/-- The pattern `%q%` for a wildcard-free `q` matches exactly the strings
containing `q` as a contiguous substring. -/
theorem likeMatch_substr (q : List Char) (hq : ∀ c ∈ q, specialChar c = false)
    (s : List Char) : likeMatch ('%' :: (q ++ ['%'])) s = contemLista q s := by
  rw [likeMatch_pct]
  exact likeScan_substr q hq s

theorem toLower_not_special {c : Char} (hc : specialChar c = false) :
    specialChar c.toLower = false := by
  by_cases h : c.toNat ≥ 65 ∧ c.toNat ≤ 90
  · have he : c.toLower = Char.ofNat (c.toNat + 32) := by
      simp [Char.toLower, h]
    rw [he]
    obtain ⟨h1, h2⟩ := h
    generalize c.toNat = n at h1 h2
    interval_cases n <;> decide
  · have he : c.toLower = c := by
      simp [Char.toLower, h]
    rw [he]
    exact hc

/-- For a query containing no `LIKE` wildcard or escape characters, the
endpoint's `ILIKE '%query%'` test agrees with case-insensitive literal
substring containment. -/
theorem ilike_eq_contemCI (cidade : String)
    (hq : ∀ c ∈ cidade.data, specialChar c = false) (s : String) :
    ilike s ("%" ++ cidade ++ "%") = contemCI s cidade := by
  have hdata : ("%" ++ cidade ++ "%").data = '%' :: (cidade.data ++ ['%']) := by
    simp [String.data_append]
  have hmap : ("%" ++ cidade ++ "%").data.map Char.toLower
      = '%' :: ((cidade.data.map Char.toLower) ++ ['%']) := by
    rw [hdata]
    simp
  rw [ilike, hmap, contemCI]
  exact likeMatch_substr _ (by
    intro c hc
    obtain ⟨c0, hc0, hceq⟩ := List.mem_map.mp hc
    exact hceq ▸ toLower_not_special (hq c0 hc0)) _

theorem ordenar_perm (l : List ClimaRow) : (ordenar l).Perm l :=
  List.mergeSort_perm l _

theorem ordenar_sorted (l : List ClimaRow) : ordenadoDesc (ordenar l) := by
  have h : (List.mergeSort l
        (fun a b : ClimaRow => decide (b.data_insercao ≤ a.data_insercao))).Pairwise
      (fun a b : ClimaRow => decide (b.data_insercao ≤ a.data_insercao) = true) :=
    List.sorted_mergeSort
      (by intro a b c hab hbc; simp only [decide_eq_true_eq] at *; omega)
      (by intro a b; simp only [Bool.or_eq_true, decide_eq_true_eq]; omega) l
  exact h.imp fun hab => of_decide_eq_true hab

theorem ordenar_eq_nil {l : List ClimaRow} : ordenar l = [] ↔ l = [] := by
  constructor
  · intro h
    have hp := ordenar_perm l
    rw [h] at hp
    exact hp.nil_eq.symm
  · intro h
    subst h
    simp [ordenar]

/-- C1: for a fully populated record, any database error during the
writer's insert (execute or commit raising after a successful connect)
makes `salvar_dados_no_bd` roll the transaction back, leave the committed
table unchanged, and end in the logged database-error outcome rather than
the success outcome, with the insert attempted exactly once (no retry); a
connection failure likewise ends in the logged error outcome with the table
unchanged and no insert attempt. -/
theorem writer_db_error_aborta (cfg : DBConfig) (table : List Linha)
    (d : Registro) (vs : List Json) (hv : valores d = some vs) :
    (cfg.connectFails = false →
      cfg.executeFails = true ∨ cfg.commitFails = true →
      (salvar_dados_no_bd cfg table (some d)).outcome = .dbError ∧
      (salvar_dados_no_bd cfg table (some d)).rolledBack = true ∧
      (salvar_dados_no_bd cfg table (some d)).table = table ∧
      (salvar_dados_no_bd cfg table (some d)).insertAttempts = 1) ∧
    (cfg.connectFails = true →
      (salvar_dados_no_bd cfg table (some d)).outcome = .dbError ∧
      (salvar_dados_no_bd cfg table (some d)).table = table ∧
      (salvar_dados_no_bd cfg table (some d)).insertAttempts = 0) := by
  rcases cfg with ⟨cf, ef, mf⟩
  cases cf <;> cases ef <;> cases mf <;> simp [salvar_dados_no_bd, hv]

/-- C1 witness: with an execute failure injected, saving the concrete good
record aborts with the database-error outcome and an unchanged table. -/
theorem writer_db_error_aborta_witness :
    (salvar_dados_no_bd ⟨false, true, false⟩ [] (some registroBom)).outcome
        = .dbError ∧
    (salvar_dados_no_bd ⟨false, true, false⟩ [] (some registroBom)).table
        = [] :=
  ⟨((writer_db_error_aborta ⟨false, true, false⟩ [] registroBom _ rfl).1
      rfl (Or.inl rfl)).1,
   ((writer_db_error_aborta ⟨false, true, false⟩ [] registroBom _ rfl).1
      rfl (Or.inl rfl)).2.2.1⟩

/-- C4: for a record holding all ten fields, a failure-free writer call
appends exactly one row whose values are the ten fields in the INSERT's
column order, and every call that does not end in the success outcome
leaves the table unchanged. -/
theorem writer_success_one_row (table : List Linha) (d : Registro)
    (c p t f mn mx u ds v ts : Json)
    (h1 : d.lookup "cidade" = some c)
    (h2 : d.lookup "pais" = some p)
    (h3 : d.lookup "temperatura_c" = some t)
    (h4 : d.lookup "sensacao_termica_c" = some f)
    (h5 : d.lookup "temp_min_c" = some mn)
    (h6 : d.lookup "temp_max_c" = some mx)
    (h7 : d.lookup "umidade_pct" = some u)
    (h8 : d.lookup "descricao" = some ds)
    (h9 : d.lookup "velocidade_vento_ms" = some v)
    (h10 : d.lookup "timestamp_coleta" = some ts) :
    (salvar_dados_no_bd ⟨false, false, false⟩ table (some d)).table
        = table ++ [[c, p, t, f, mn, mx, u, ds, v, ts]] ∧
    (salvar_dados_no_bd ⟨false, false, false⟩ table (some d)).outcome
        = .saved ∧
    ∀ (cfg : DBConfig) (dados : Option Registro),
      (salvar_dados_no_bd cfg table dados).outcome ≠ .saved →
      (salvar_dados_no_bd cfg table dados).table = table := by
  have hv : valores d = some [c, p, t, f, mn, mx, u, ds, v, ts] := by
    simp [valores, h1, h2, h3, h4, h5, h6, h7, h8, h9, h10]
  refine ⟨by simp [salvar_dados_no_bd, hv], by simp [salvar_dados_no_bd, hv], ?_⟩
  intro cfg dados hns
  rcases dados with _ | d2
  · rfl
  · rcases cfg with ⟨cf, ef, mf⟩
    cases cf
    · cases hvd : valores d2 with
      | none => simp [salvar_dados_no_bd, hvd]
      | some vs2 =>
        cases ef <;> cases mf <;> simp_all [salvar_dados_no_bd]
    · rfl

/-- C4 witness: saving the concrete good record on an empty table yields
exactly the one expected row. -/
theorem writer_success_one_row_witness :
    (salvar_dados_no_bd ⟨false, false, false⟩ [] (some registroBom)).table
        = [] ++ [[.str "Florianopolis", .str "BR", .num 20, .num 21, .num 18,
                  .num 23, .num 70, .str "ceu limpo", .num 3,
                  .num 1700000000]] :=
  (writer_success_one_row [] registroBom _ _ _ _ _ _ _ _ _ _
    rfl rfl rfl rfl rfl rfl rfl rfl rfl rfl).1

/-- C9: the writer and both query endpoints close their database connection
on every exit path — the connection-closed flag equals the
connection-opened flag for every input and every injected failure. -/
theorem conexoes_sempre_fechadas :
    (∀ (cfg : DBConfig) (table : List Linha) (dados : Option Registro),
      (salvar_dados_no_bd cfg table dados).connClosed
        = (salvar_dados_no_bd cfg table dados).connOpened) ∧
    (∀ (cfg : ApiDBConfig) (table : List ClimaRow),
      (get_clima_todos cfg table).connClosed
        = (get_clima_todos cfg table).connOpened) ∧
    (∀ (cfg : ApiDBConfig) (table : List ClimaRow) (cidade : String),
      (get_clima_por_cidade cfg table cidade).connClosed
        = (get_clima_por_cidade cfg table cidade).connOpened) := by
  refine ⟨?_, ?_, ?_⟩
  · intro cfg table dados
    rcases dados with _ | d
    · rfl
    · rcases cfg with ⟨cf, ef, mf⟩
      cases cf
      · cases hvd : valores d <;> cases ef <;> cases mf <;>
          simp [salvar_dados_no_bd, hvd]
      · rfl
  · intro cfg table
    rcases cfg with ⟨c1, q1⟩
    cases c1 <;> cases q1 <;> rfl
  · intro cfg table cidade
    rcases cfg with ⟨c1, q1⟩
    cases c1
    · cases q1
      · cases hemp : (ordenar (table.filter fun r =>
            ilike r.cidade ("%" ++ cidade ++ "%"))).isEmpty <;>
          simp [get_clima_por_cidade, hemp]
      · rfl
    · rfl

/-- C8: for a response whose `main` object lacks the `temp` key (the other
required fields being present), extraction returns the caught failure value
`None`, the batch run leaves the table unchanged with the writer never
invoked and no insert attempted, and the writer called on the failure value
performs no database operation at all. -/
theorem extracao_sem_temp_nao_grava (cfg : DBConfig) (table : List Linha)
    (fs sfs mfs : List (String × Json)) (nv cv : Json)
    (hn : fs.lookup "name" = some nv)
    (hs : fs.lookup "sys" = some (.obj sfs))
    (hc : sfs.lookup "country" = some cv)
    (hm : fs.lookup "main" = some (.obj mfs))
    (ht : mfs.lookup "temp" = none) :
    extrair_info_interesse (some (.obj fs)) = .ok none ∧
    mainPipeline cfg table (some (.obj fs)) = ⟨table, false, none, 0, none⟩ ∧
    salvar_dados_no_bd cfg table none
        = ⟨table, .noData, false, false, false, 0⟩ := by
  have hcampos : camposClima (.obj fs) = .error (.keyError "temp") := by
    unfold camposClima
    simp [Json.item, hn, hs, hc, hm, ht, Bind.bind, Except.bind]
  have hext : extrair_info_interesse (some (.obj fs)) = .ok none := by
    simp [extrair_info_interesse, hcampos]
  refine ⟨hext, ?_, rfl⟩
  have htruthy : truthy (.obj fs) = true := by
    cases fs with
    | nil => simp [List.lookup] at hn
    | cons a l => simp [truthy]
  simp [mainPipeline, htruthy, hext]

/-- C8 witness: the concrete response lacking `main.temp` yields the
failure value and a batch run that writes nothing. -/
theorem extracao_sem_temp_nao_grava_witness :
    extrair_info_interesse (some respSemTemp) = .ok none ∧
    mainPipeline ⟨false, false, false⟩ [] (some respSemTemp)
        = ⟨[], false, none, 0, none⟩ :=
  ⟨(extracao_sem_temp_nao_grava ⟨false, false, false⟩ []
      [("name", .str "Florianopolis"), ("sys", .obj [("country", .str "BR")]),
       ("main", .obj [("feels_like", .num 21), ("temp_min", .num 18),
                      ("temp_max", .num 23), ("humidity", .num 70)]),
       ("weather", .arr [.obj [("description", .str "ceu limpo")]]),
       ("wind", .obj [("speed", .num 3)]), ("dt", .num 1700000000)]
      [("country", .str "BR")]
      [("feels_like", .num 21), ("temp_min", .num 18), ("temp_max", .num 23),
       ("humidity", .num 70)]
      (.str "Florianopolis") (.str "BR") rfl rfl rfl rfl rfl).1,
   (extracao_sem_temp_nao_grava ⟨false, false, false⟩ []
      [("name", .str "Florianopolis"), ("sys", .obj [("country", .str "BR")]),
       ("main", .obj [("feels_like", .num 21), ("temp_min", .num 18),
                      ("temp_max", .num 23), ("humidity", .num 70)]),
       ("weather", .arr [.obj [("description", .str "ceu limpo")]]),
       ("wind", .obj [("speed", .num 3)]), ("dt", .num 1700000000)]
      [("country", .str "BR")]
      [("feels_like", .num 21), ("temp_min", .num 18), ("temp_max", .num 23),
       ("humidity", .num 70)]
      (.str "Florianopolis") (.str "BR") rfl rfl rfl rfl rfl).2.1⟩

/-- C2 (amended): extraction never produces a partial record — every
invocation either returns the caught failure value, terminates with an
uncaught exception (for non-`KeyError` malformations such as an empty
weather list), or returns a record carrying all ten fields. -/
theorem extracao_tudo_ou_nada (dados_completos : Option Json) :
    extrair_info_interesse dados_completos = .ok none ∨
    (∃ e, extrair_info_interesse dados_completos = .error e) ∨
    (∃ rec, extrair_info_interesse dados_completos = .ok (some rec) ∧
      rec.map Prod.fst = chavesRegistro) := by
  rcases dados_completos with _ | d
  · exact Or.inl rfl
  · cases hb : camposClima d with
    | error e =>
      cases e with
      | keyError k => exact Or.inl (by simp [extrair_info_interesse, hb])
      | indexError =>
        exact Or.inr (Or.inl ⟨.indexError, by simp [extrair_info_interesse, hb]⟩)
      | typeError =>
        exact Or.inr (Or.inl ⟨.typeError, by simp [extrair_info_interesse, hb]⟩)
    | ok rec =>
      obtain ⟨c1, s1, pa, m1, t1, m2, se, m3, mn1, m4, mx1, m5, um, wx, w0,
              de, wd, ve, ts, hrec, -⟩ := camposClima_ok_decomp hb
      refine Or.inr (Or.inr ⟨rec, by simp [extrair_info_interesse, hb], ?_⟩)
      rw [hrec]
      rfl

/-- C2 counterexample: on the response with an empty weather list,
extraction terminates with an uncaught `IndexError` — neither a fully
populated record nor the caught failure value. -/
theorem extracao_weather_vazio_excecao :
    extrair_info_interesse (some respSemWeather) = .error .indexError := rfl

/-- C7 (amended): a successfully extracted record has all ten fields
populated, but the humidity and wind-speed values are copied verbatim from
the raw response without any range validation, so the data-model bounds
hold exactly when the raw response's values satisfy them. -/
theorem extracao_copia_sem_validar (d : Json) (rec : Registro)
    (h : camposClima d = .ok rec) :
    rec.map Prod.fst = chavesRegistro ∧
    (∃ m u, d.item "main" = .ok m ∧ m.item "humidity" = .ok u ∧
      rec.lookup "umidade_pct" = some u) ∧
    (∃ w v, d.item "wind" = .ok w ∧ w.item "speed" = .ok v ∧
      rec.lookup "velocidade_vento_ms" = some v) := by
  obtain ⟨c1, s1, pa, m1, t1, m2, se, m3, mn1, m4, mx1, m5, um, wx, w0,
          de, wd, ve, ts, hrec, hn, hs, hc, hm1, ht1, hm2, hf2, hm3, ht3,
          hm4, ht4, hm5, hh5, hwx, hw0, hde, hwd, hve, hts⟩ :=
    camposClima_ok_decomp h
  subst hrec
  exact ⟨rfl, ⟨m5, um, hm5, hh5, rfl⟩, ⟨wd, ve, hwd, hve, rfl⟩⟩

/-- C7 witness: on the concrete good response the extracted record carries
the response's humidity and wind speed. -/
theorem extracao_copia_sem_validar_witness :
    registroBom.map Prod.fst = chavesRegistro ∧
    (∃ m u, respBoa.item "main" = .ok m ∧ m.item "humidity" = .ok u ∧
      registroBom.lookup "umidade_pct" = some u) ∧
    (∃ w v, respBoa.item "wind" = .ok w ∧ w.item "speed" = .ok v ∧
      registroBom.lookup "velocidade_vento_ms" = some v) :=
  extracao_copia_sem_validar respBoa registroBom rfl

/-- C7 counterexample: extraction succeeds on the response whose humidity
is 150 and whose wind speed is -1, producing a stored record that violates
both data-model bounds — no range check is performed. -/
theorem extracao_aceita_fora_dos_limites :
    (∃ rec, extrair_info_interesse (some respForaDosLimites) = .ok (some rec) ∧
      rec.lookup "umidade_pct" = some (.num 150) ∧
      rec.lookup "velocidade_vento_ms" = some (.num (-1))) ∧
    umidadeValida (.num 150) = false ∧
    ventoValido (.num (-1)) = false := by
  refine ⟨⟨[("cidade", .str "Florianopolis"), ("pais", .str "BR"),
           ("temperatura_c", .num 20), ("sensacao_termica_c", .num 21),
           ("temp_min_c", .num 18), ("temp_max_c", .num 23),
           ("umidade_pct", .num 150), ("descricao", .str "ceu limpo"),
           ("velocidade_vento_ms", .num (-1)),
           ("timestamp_coleta", .num 1700000000)], rfl, rfl, rfl⟩, ?_, ?_⟩
  · decide
  · decide

/-- C10: the extracted record depends only on the first element of the
weather array — two responses agreeing on every other consulted field and
on the head of their weather arrays extract identically, whatever the
remaining weather entries are. -/
theorem extracao_usa_primeiro_clima (d1 d2 w : Json) (ws1 ws2 : List Json)
    (hn : d1.item "name" = d2.item "name")
    (hs : d1.item "sys" = d2.item "sys")
    (hm : d1.item "main" = d2.item "main")
    (hw1 : d1.item "weather" = .ok (.arr (w :: ws1)))
    (hw2 : d2.item "weather" = .ok (.arr (w :: ws2)))
    (hv : d1.item "wind" = d2.item "wind")
    (ht : d1.item "dt" = d2.item "dt") :
    extrair_info_interesse (some d1) = extrair_info_interesse (some d2) := by
  have hc : camposClima d1 = camposClima d2 := by
    unfold camposClima
    rw [hn, hs, hm, hw1, hw2, hv, ht]
    simp [Bind.bind, Except.bind, Json.index]
  simp [extrair_info_interesse, hc]

/-- C10 witness: adding a second weather entry to the concrete good
response leaves the extraction result unchanged. -/
theorem extracao_usa_primeiro_clima_witness :
    extrair_info_interesse (some respBoa)
      = extrair_info_interesse (some respBoaDoisClimas) :=
  extracao_usa_primeiro_clima respBoa respBoaDoisClimas
    (.obj [("description", .str "ceu limpo")]) []
    [.obj [("description", .str "nuvens")]] rfl rfl rfl rfl rfl rfl rfl

theorem ordenar_isEmpty (l : List ClimaRow) :
    (ordenar l).isEmpty = true ↔ l = [] := by
  rw [List.isEmpty_iff]
  exact ordenar_eq_nil

/-- C5: with no database failure, `GET /clima` answers 200 with every
stored record, ordered newest first by insertion timestamp, and an empty
table yields the empty list rather than an error. -/
theorem get_todos_ordenado (cfg : ApiDBConfig) (table : List ClimaRow)
    (hc : cfg.connectFails = false) (hq : cfg.queryFails = false) :
    (get_clima_todos cfg table).status = 200 ∧
    (get_clima_todos cfg table).body.Perm table ∧
    ordenadoDesc (get_clima_todos cfg table).body ∧
    (table = [] → (get_clima_todos cfg table).body = []) := by
  have hres : get_clima_todos cfg table = ⟨200, ordenar table, true, true⟩ := by
    simp [get_clima_todos, hc, hq]
  rw [hres]
  exact ⟨rfl, ordenar_perm table, ordenar_sorted table,
         fun h => by simp [h, ordenar]⟩

/-- C5 witness: a concrete two-row table is returned in full with
status 200. -/
theorem get_todos_ordenado_witness :
    (get_clima_todos ⟨false, false⟩
        [⟨1, "Florianopolis", 1⟩, ⟨2, "Curitiba", 5⟩]).status = 200 ∧
    (get_clima_todos ⟨false, false⟩
        [⟨1, "Florianopolis", 1⟩, ⟨2, "Curitiba", 5⟩]).body.Perm
      [⟨1, "Florianopolis", 1⟩, ⟨2, "Curitiba", 5⟩] :=
  ⟨(get_todos_ordenado ⟨false, false⟩ _ rfl rfl).1,
   (get_todos_ordenado ⟨false, false⟩ _ rfl rfl).2.1⟩

/-- C6: `GET /clima/{cidade}` answers 500 exactly when a database error is
injected (connection or query failure); with no failure it answers 404
exactly when no stored row matches the ILIKE pattern and 200 exactly when
some row does — the 404 is never turned into a 500 nor conversely. -/
theorem get_por_cidade_status (cfg : ApiDBConfig) (table : List ClimaRow)
    (cidade : String) :
    (cfg.connectFails = true ∨ cfg.queryFails = true →
      (get_clima_por_cidade cfg table cidade).status = 500) ∧
    (cfg.connectFails = false → cfg.queryFails = false →
      ((get_clima_por_cidade cfg table cidade).status = 404 ↔
        table.filter (fun r => ilike r.cidade ("%" ++ cidade ++ "%")) = []) ∧
      ((get_clima_por_cidade cfg table cidade).status = 200 ↔
        table.filter (fun r => ilike r.cidade ("%" ++ cidade ++ "%")) ≠ [])) := by
  rcases cfg with ⟨c1, q1⟩
  constructor
  · intro h
    rcases h with h | h
    · subst h
      rfl
    · subst h
      cases c1 <;> rfl
  · intro hc hq
    subst hc
    subst hq
    cases hemp : (ordenar (table.filter fun r =>
        ilike r.cidade ("%" ++ cidade ++ "%"))).isEmpty with
    | true =>
      have hnil := (ordenar_isEmpty _).mp hemp
      have hres : get_clima_por_cidade ⟨false, false⟩ table cidade
          = ⟨404, [], true, true⟩ := by
        simp [get_clima_por_cidade, hemp]
      rw [hres]
      exact ⟨⟨fun _ => hnil, fun _ => rfl⟩,
             ⟨fun h => absurd h (by decide), fun h => absurd hnil h⟩⟩
    | false =>
      have hne : table.filter (fun r =>
          ilike r.cidade ("%" ++ cidade ++ "%")) ≠ [] := fun h =>
        by rw [(ordenar_isEmpty _).mpr h] at hemp; exact Bool.true_eq_false.mp hemp
      have hres : get_clima_por_cidade ⟨false, false⟩ table cidade
          = ⟨200, ordenar (table.filter fun r =>
              ilike r.cidade ("%" ++ cidade ++ "%")), true, true⟩ := by
        simp [get_clima_por_cidade, hemp]
      rw [hres]
      exact ⟨⟨fun h => by simp at h, fun h => absurd h hne⟩,
             ⟨fun _ => hne, fun _ => rfl⟩⟩

/-- C6 witness: a connection failure yields 500, and a query matching no
stored city yields 404. -/
theorem get_por_cidade_status_witness :
    (get_clima_por_cidade ⟨true, false⟩ [] "x").status = 500 ∧
    (get_clima_por_cidade ⟨false, false⟩ [⟨1, "abc", 0⟩] "xyz").status = 404 :=
  ⟨(get_por_cidade_status ⟨true, false⟩ [] "x").1 (Or.inl rfl),
   ((get_por_cidade_status ⟨false, false⟩ [⟨1, "abc", 0⟩] "xyz").2
      rfl rfl).1.mpr rfl⟩

/-- C3 (amended): for a query containing no `LIKE` wildcard or escape
characters, and matching at least one stored row, `GET /clima/{cidade}`
returns exactly the rows whose city contains the query as a
case-insensitive literal substring, ordered by insertion timestamp
descending; queries containing `%`, `_` or a backslash are instead
interpreted with those characters as pattern wildcards. -/
theorem get_por_cidade_substring (cfg : ApiDBConfig) (table : List ClimaRow)
    (cidade : String)
    (hc : cfg.connectFails = false) (hq : cfg.queryFails = false)
    (hplain : ∀ c ∈ cidade.data, specialChar c = false)
    (hne : table.filter (fun r => contemCI r.cidade cidade) ≠ []) :
    (get_clima_por_cidade cfg table cidade).status = 200 ∧
    (get_clima_por_cidade cfg table cidade).body.Perm
      (table.filter fun r => contemCI r.cidade cidade) ∧
    ordenadoDesc (get_clima_por_cidade cfg table cidade).body := by
  rcases cfg with ⟨c1, q1⟩
  subst hc
  subst hq
  have hfil : (table.filter fun r => ilike r.cidade ("%" ++ cidade ++ "%"))
      = table.filter fun r => contemCI r.cidade cidade :=
    List.filter_congr fun r _ => ilike_eq_contemCI cidade hplain r.cidade
  have hemp : (ordenar (table.filter fun r =>
      ilike r.cidade ("%" ++ cidade ++ "%"))).isEmpty = false := by
    rw [hfil]
    cases h2 : (ordenar (table.filter fun r =>
        contemCI r.cidade cidade)).isEmpty with
    | true => exact absurd ((ordenar_isEmpty _).mp h2) hne
    | false => rfl
  have hres : get_clima_por_cidade ⟨false, false⟩ table cidade
      = ⟨200, ordenar (table.filter fun r => contemCI r.cidade cidade),
         true, true⟩ := by
    simp [get_clima_por_cidade, hemp, hfil]
    exact fun h => hne (ordenar_eq_nil.mp h)
  rw [hres]
  exact ⟨rfl, ordenar_perm _, ordenar_sorted _⟩

/-- C3 witness: the query "florian" returns the stored row for
"Florianópolis" by case-insensitive substring match. -/
theorem get_por_cidade_substring_witness :
    (get_clima_por_cidade ⟨false, false⟩ [⟨1, "Florianópolis", 5⟩]
        "florian").status = 200 ∧
    (get_clima_por_cidade ⟨false, false⟩ [⟨1, "Florianópolis", 5⟩]
        "florian").body.Perm
      ([⟨1, "Florianópolis", 5⟩].filter fun r => contemCI r.cidade "florian") :=
  ⟨(get_por_cidade_substring ⟨false, false⟩ [⟨1, "Florianópolis", 5⟩]
      "florian" rfl rfl (by decide) (by decide)).1,
   (get_por_cidade_substring ⟨false, false⟩ [⟨1, "Florianópolis", 5⟩]
      "florian" rfl rfl (by decide) (by decide)).2.1⟩

/-- C3 counterexample: the query "a_c" returns the stored row for "abc"
with status 200, although "abc" does not contain "a_c" as a literal
substring — the underscore acts as an ILIKE single-character wildcard. -/
theorem get_por_cidade_curinga_vaza :
    (get_clima_por_cidade ⟨false, false⟩ [⟨1, "abc", 0⟩] "a_c")
      = ⟨200, [⟨1, "abc", 0⟩], true, true⟩ ∧
    contemCI "abc" "a_c" = false := by
  constructor
  · have h2 : [(⟨1, "abc", 0⟩ : ClimaRow)].filter (fun r =>
        ilike r.cidade "%a_c%") = [⟨1, "abc", 0⟩] := rfl
    have h3 : ordenar [⟨1, "abc", 0⟩] = [⟨1, "abc", 0⟩] := by
      simp [ordenar]
    simp [get_clima_por_cidade, h2, h3]
  · rfl

end Clima
